import Mathlib

/-!
Verification of the Vector.js 3D vector library (src/src/index.js and the
unnamed near-identical module src/unnamed/part_000).

The embedding models JavaScript numbers as an extended-rational type
`JSNum`: `NaN`, the two infinities, and exact rationals for finite values.
Finite arithmetic is exact (IEEE-754 rounding is not modelled; none of the
verified claims depends on rounding), while the special-value propagation
rules of IEEE-754 / ECMAScript (NaN absorption, infinity arithmetic,
division by zero) are modelled faithfully.  The negative zero of IEEE-754
is not distinguished from positive zero: the library's own `===`-based
`equals` cannot distinguish them either, and no claim rests on the sign of
zero.  `Math.sqrt`, `Math.cos`, `Math.sin` are opaque host functions and
are passed as explicit function parameters; theorems that need them state
the IEEE facts they use (such as `sqrt 0 = 0`) as hypotheses.

Mutable `Vector` objects are modelled by a small heap: a store mapping
references (naturals) to vector values plus an allocation counter.  The
static operations of the source mutate a caller-supplied output object
field by field in source order, so they are embedded as sequential store
updates; the instance operations allocate a fresh object via the `Vector`
constructor (which coerces falsy arguments, including `NaN`, to `0` by the
`x || 0` idiom of the source).
-/

namespace VJS

/-- JavaScript number: NaN, the infinities, or an exact finite value. -/
inductive JSNum where
  | nan : JSNum
  | posInf : JSNum
  | negInf : JSNum
  | fin : ℚ → JSNum
deriving DecidableEq, Repr

/-- IEEE / ECMAScript addition on the model (exact on finite values). -/
def jadd : JSNum → JSNum → JSNum
  | .nan, _ => .nan
  | _, .nan => .nan
  | .posInf, .negInf => .nan
  | .negInf, .posInf => .nan
  | .posInf, _ => .posInf
  | .negInf, _ => .negInf
  | .fin _, .posInf => .posInf
  | .fin _, .negInf => .negInf
  | .fin p, .fin q => .fin (p + q)

/-- IEEE / ECMAScript subtraction on the model. -/
def jsub : JSNum → JSNum → JSNum
  | .nan, _ => .nan
  | _, .nan => .nan
  | .posInf, .posInf => .nan
  | .negInf, .negInf => .nan
  | .posInf, _ => .posInf
  | .negInf, _ => .negInf
  | .fin _, .posInf => .negInf
  | .fin _, .negInf => .posInf
  | .fin p, .fin q => .fin (p - q)

/-- IEEE / ECMAScript multiplication on the model; `±∞ * 0 = NaN`. -/
def jmul : JSNum → JSNum → JSNum
  | .nan, _ => .nan
  | _, .nan => .nan
  | .posInf, .posInf => .posInf
  | .posInf, .negInf => .negInf
  | .negInf, .posInf => .negInf
  | .negInf, .negInf => .posInf
  | .posInf, .fin q => if q = 0 then .nan else if 0 < q then .posInf else .negInf
  | .negInf, .fin q => if q = 0 then .nan else if 0 < q then .negInf else .posInf
  | .fin p, .posInf => if p = 0 then .nan else if 0 < p then .posInf else .negInf
  | .fin p, .negInf => if p = 0 then .nan else if 0 < p then .negInf else .posInf
  | .fin p, .fin q => .fin (p * q)

/-- IEEE / ECMAScript division on the model: `0/0 = NaN`, `p/0 = ±∞` for
finite nonzero `p`, `∞/∞ = NaN`, `p/∞ = 0`. -/
def jdiv : JSNum → JSNum → JSNum
  | .nan, _ => .nan
  | _, .nan => .nan
  | .posInf, .posInf => .nan
  | .posInf, .negInf => .nan
  | .negInf, .posInf => .nan
  | .negInf, .negInf => .nan
  | .posInf, .fin q => if 0 ≤ q then .posInf else .negInf
  | .negInf, .fin q => if 0 ≤ q then .negInf else .posInf
  | .fin _, .posInf => .fin 0
  | .fin _, .negInf => .fin 0
  | .fin p, .fin q =>
      if q = 0 then (if p = 0 then .nan else if 0 < p then .posInf else .negInf)
      else .fin (p / q)

/-- IEEE / ECMAScript unary negation on the model. -/
def jneg : JSNum → JSNum
  | .nan => .nan
  | .posInf => .negInf
  | .negInf => .posInf
  | .fin q => .fin (-q)

/-- JavaScript strict equality `===` on numbers: `NaN === x` is false,
everything else compares by value. -/
def jeq : JSNum → JSNum → Bool
  | .nan, _ => false
  | _, .nan => false
  | .posInf, .posInf => true
  | .posInf, _ => false
  | .negInf, .negInf => true
  | .negInf, _ => false
  | .fin p, .fin q => decide (p = q)
  | .fin _, _ => false

/-- JavaScript truthiness of a number: `NaN` and `0` are falsy. -/
def jsTruthy : JSNum → Bool
  | .nan => false
  | .posInf => true
  | .negInf => true
  | .fin q => decide (q ≠ 0)

/-- The `a || d` idiom of the source applied to a possibly-missing
(`undefined`) number argument: a missing or falsy value yields `d`. -/
def jsOr (a : Option JSNum) (d : JSNum) : JSNum :=
  match a with
  | none => d
  | some v => if jsTruthy v then v else d

/-- A vector value: the `x`, `y`, `z` fields of a `Vector` object. -/
@[ext]
structure Vector where
  x : JSNum
  y : JSNum
  z : JSNum
deriving DecidableEq, Repr

/-- The source constructor
`constructor(x, y, z) { Object.assign(this, { x: x || 0, y: y || 0, z: z || 0 }) }`:
each missing or falsy argument (including `NaN`) is coerced to `0`. -/
def Vector.construct (x y z : Option JSNum) : Vector :=
  ⟨jsOr x (.fin 0), jsOr y (.fin 0), jsOr z (.fin 0)⟩

/-- Second operand of the arithmetic operations, dispatched by the source's
`instanceof Vector` test: either a vector value or a scalar. -/
inductive VOperand where
  | vec : Vector → VOperand
  | scalar : JSNum → VOperand
deriving DecidableEq, Repr

/-- Instance `add`: `new Vector(this.x + v.x, ...)`, or scalar broadcast. -/
def Vector.add (a : Vector) (v : VOperand) : Vector :=
  match v with
  | .vec b =>
      Vector.construct (some (jadd a.x b.x)) (some (jadd a.y b.y)) (some (jadd a.z b.z))
  | .scalar s =>
      Vector.construct (some (jadd a.x s)) (some (jadd a.y s)) (some (jadd a.z s))

/-- Instance `subtract`. -/
def Vector.subtract (a : Vector) (v : VOperand) : Vector :=
  match v with
  | .vec b =>
      Vector.construct (some (jsub a.x b.x)) (some (jsub a.y b.y)) (some (jsub a.z b.z))
  | .scalar s =>
      Vector.construct (some (jsub a.x s)) (some (jsub a.y s)) (some (jsub a.z s))

/-- Instance `multiply`. -/
def Vector.multiply (a : Vector) (v : VOperand) : Vector :=
  match v with
  | .vec b =>
      Vector.construct (some (jmul a.x b.x)) (some (jmul a.y b.y)) (some (jmul a.z b.z))
  | .scalar s =>
      Vector.construct (some (jmul a.x s)) (some (jmul a.y s)) (some (jmul a.z s))

/-- Instance `divide`. -/
def Vector.divide (a : Vector) (v : VOperand) : Vector :=
  match v with
  | .vec b =>
      Vector.construct (some (jdiv a.x b.x)) (some (jdiv a.y b.y)) (some (jdiv a.z b.z))
  | .scalar s =>
      Vector.construct (some (jdiv a.x s)) (some (jdiv a.y s)) (some (jdiv a.z s))

/-- Instance `negative`: `new Vector(-this.x, -this.y, -this.z)`. -/
def Vector.negative (a : Vector) : Vector :=
  Vector.construct (some (jneg a.x)) (some (jneg a.y)) (some (jneg a.z))

/-- Instance `cross`. -/
def Vector.cross (a b : Vector) : Vector :=
  Vector.construct
    (some (jsub (jmul a.y b.z) (jmul a.z b.y)))
    (some (jsub (jmul a.z b.x) (jmul a.x b.z)))
    (some (jsub (jmul a.x b.y) (jmul a.y b.x)))

/-- Instance `dot`: `this.x * v.x + this.y * v.y + this.z * v.z`
(left-associated as in the source). -/
def Vector.dot (a b : Vector) : JSNum :=
  jadd (jadd (jmul a.x b.x) (jmul a.y b.y)) (jmul a.z b.z)

/-- Instance `length` / `magnitude`: `Math.sqrt(this.dot(this))`; the host
function `Math.sqrt` is passed explicitly. -/
def Vector.length (sqrt : JSNum → JSNum) (a : Vector) : JSNum :=
  sqrt (a.dot a)

/-- Instance `unit`: `this.divide(this.length())`. -/
def Vector.unit (sqrt : JSNum → JSNum) (a : Vector) : Vector :=
  a.divide (.scalar (a.length sqrt))

/-- Instance `equals`: `this.x === v.x && this.y === v.y && this.z === v.z`. -/
def Vector.equals (a b : Vector) : Bool :=
  jeq a.x b.x && jeq a.y b.y && jeq a.z b.z

/-- Static `lerp(a, b, t) = a.multiply(1 - t).add(b.multiply(t))` (built on
the instance operations, hence subject to constructor coercion). -/
def Vector.lerp (a b : Vector) (t : JSNum) : Vector :=
  (a.multiply (.scalar (jsub (.fin 1) t))).add (.vec (b.multiply (.scalar t)))

/-- Truncation toward zero of a rational, as in ECMAScript
`ToIntegerOrInfinity` for finite values. -/
def ratTrunc (q : ℚ) : Int :=
  if 0 ≤ q then ⌊q⌋ else -⌊-q⌋

/-- The element count selected by `[x, y, z].slice(0, e)` for an end
argument `e`, per `Array.prototype.slice` with list length 3: `NaN` and
`-∞` give 0, `+∞` gives 3, a negative finite end counts from the end of
the list, and otherwise the truncated end is capped at 3. -/
def jsSliceEnd3 (e : JSNum) : Nat :=
  match e with
  | .nan => 0
  | .posInf => 3
  | .negInf => 0
  | .fin q =>
      let t := ratTrunc q
      if t < 0 then (3 + t).toNat else min t.toNat 3

/-- Instance `toArray(n)`: `[this.x, this.y, this.z].slice(0, n || 3)`;
`n` is `none` when the argument is omitted (`undefined`). -/
def Vector.toArray (a : Vector) (n : Option JSNum) : List JSNum :=
  [a.x, a.y, a.z].take (jsSliceEnd3 (jsOr n (.fin 3)))

/-- Static `fromPhiTheta(phi, theta)` of the unnamed module:
`new Vector(cos(phi) * cos(theta), sin(phi), cos(phi) * sin(theta))` with
the host functions `Math.cos`, `Math.sin` passed explicitly. -/
def Vector.fromPhiTheta (cos sin : JSNum → JSNum) (phi theta : JSNum) : Vector :=
  Vector.construct
    (some (jmul (cos phi) (cos theta)))
    (some (sin phi))
    (some (jmul (cos phi) (sin theta)))

/-- Static `fromAngles(theta, phi)` of src/src/index.js:
`new Vector(cos(theta) * cos(phi), sin(phi), sin(theta) * cos(phi))`. -/
def Vector.fromAngles (cos sin : JSNum → JSNum) (theta phi : JSNum) : Vector :=
  Vector.construct
    (some (jmul (cos theta) (cos phi)))
    (some (sin phi))
    (some (jmul (sin theta) (cos phi)))

/-- Componentwise value computed by the static `add` (no coercion: the
static forms assign the raw sums to the output's fields). -/
def addVals (a : Vector) (v : VOperand) : Vector :=
  match v with
  | .vec b => ⟨jadd a.x b.x, jadd a.y b.y, jadd a.z b.z⟩
  | .scalar s => ⟨jadd a.x s, jadd a.y s, jadd a.z s⟩

/-- Componentwise value computed by the static `subtract`. -/
def subVals (a : Vector) (v : VOperand) : Vector :=
  match v with
  | .vec b => ⟨jsub a.x b.x, jsub a.y b.y, jsub a.z b.z⟩
  | .scalar s => ⟨jsub a.x s, jsub a.y s, jsub a.z s⟩

/-- Componentwise value computed by the static `multiply`. -/
def mulVals (a : Vector) (v : VOperand) : Vector :=
  match v with
  | .vec b => ⟨jmul a.x b.x, jmul a.y b.y, jmul a.z b.z⟩
  | .scalar s => ⟨jmul a.x s, jmul a.y s, jmul a.z s⟩

/-- Componentwise value computed by the static `divide`. -/
def divVals (a : Vector) (v : VOperand) : Vector :=
  match v with
  | .vec b => ⟨jdiv a.x b.x, jdiv a.y b.y, jdiv a.z b.z⟩
  | .scalar s => ⟨jdiv a.x s, jdiv a.y s, jdiv a.z s⟩

/-- A vector value none of whose components is NaN. -/
def noNaN (v : Vector) : Prop :=
  v.x ≠ .nan ∧ v.y ≠ .nan ∧ v.z ≠ .nan

instance (v : Vector) : Decidable (noNaN v) := by
  unfold noNaN; infer_instance

/-- Object reference in the heap model. -/
abbrev Ref := Nat

/-- Heap of `Vector` objects: a store from references to vector values and
an allocation counter; allocated references are those below `next`. -/
structure Heap where
  store : Ref → Vector
  next : Ref

/-- The field assignment `r.x = n`. -/
def Heap.setX (h : Heap) (r : Ref) (n : JSNum) : Heap :=
  ⟨fun r' => ⟨if r' = r then n else (h.store r').x, (h.store r').y, (h.store r').z⟩, h.next⟩

/-- The field assignment `r.y = n`. -/
def Heap.setY (h : Heap) (r : Ref) (n : JSNum) : Heap :=
  ⟨fun r' => ⟨(h.store r').x, if r' = r then n else (h.store r').y, (h.store r').z⟩, h.next⟩

/-- The field assignment `r.z = n`. -/
def Heap.setZ (h : Heap) (r : Ref) (n : JSNum) : Heap :=
  ⟨fun r' => ⟨(h.store r').x, (h.store r').y, if r' = r then n else (h.store r').z⟩, h.next⟩

/-- Allocation of a fresh object holding the vector value `v` (the value a
`new Vector(...)` call produced); returns the new heap and the fresh
reference. -/
def Heap.allocVal (h : Heap) (v : Vector) : Heap × Ref :=
  (⟨fun r => if r = h.next then v else h.store r, h.next + 1⟩, h.next)

/-- Second operand of a static operation in the heap model: an object
reference (the `instanceof Vector` branch) or a scalar. -/
inductive HOperand where
  | vec : Ref → HOperand
  | scalar : JSNum → HOperand
deriving DecidableEq, Repr

/-- The vector-or-scalar value an `HOperand` denotes in a heap. -/
def HOperand.deref (b : HOperand) (h : Heap) : VOperand :=
  match b with
  | .vec r => .vec (h.store r)
  | .scalar s => .scalar s

/-- Whether an `HOperand` only mentions already-allocated references. -/
def HOperand.validIn (b : HOperand) (h : Heap) : Bool :=
  match b with
  | .vec r => decide (r < h.next)
  | .scalar _ => true

/-- Static `Vector.add(a, b, c)` with explicit output object `c`: the three
field assignments `c.x = ...; c.y = ...; c.z = ...` in source order
(each right-hand side reads the then-current field values), returning `c`. -/
def Heap.addStatic (h : Heap) (ra : Ref) (b : HOperand) (rc : Ref) : Heap × Ref :=
  match b with
  | .vec rb =>
      let h1 := h.setX rc (jadd (h.store ra).x (h.store rb).x)
      let h2 := h1.setY rc (jadd (h1.store ra).y (h1.store rb).y)
      let h3 := h2.setZ rc (jadd (h2.store ra).z (h2.store rb).z)
      (h3, rc)
  | .scalar s =>
      let h1 := h.setX rc (jadd (h.store ra).x s)
      let h2 := h1.setY rc (jadd (h1.store ra).y s)
      let h3 := h2.setZ rc (jadd (h2.store ra).z s)
      (h3, rc)

/-- Static `Vector.subtract(a, b, c)` with explicit output object. -/
def Heap.subtractStatic (h : Heap) (ra : Ref) (b : HOperand) (rc : Ref) : Heap × Ref :=
  match b with
  | .vec rb =>
      let h1 := h.setX rc (jsub (h.store ra).x (h.store rb).x)
      let h2 := h1.setY rc (jsub (h1.store ra).y (h1.store rb).y)
      let h3 := h2.setZ rc (jsub (h2.store ra).z (h2.store rb).z)
      (h3, rc)
  | .scalar s =>
      let h1 := h.setX rc (jsub (h.store ra).x s)
      let h2 := h1.setY rc (jsub (h1.store ra).y s)
      let h3 := h2.setZ rc (jsub (h2.store ra).z s)
      (h3, rc)

/-- Static `Vector.multiply(a, b, c)` with explicit output object. -/
def Heap.multiplyStatic (h : Heap) (ra : Ref) (b : HOperand) (rc : Ref) : Heap × Ref :=
  match b with
  | .vec rb =>
      let h1 := h.setX rc (jmul (h.store ra).x (h.store rb).x)
      let h2 := h1.setY rc (jmul (h1.store ra).y (h1.store rb).y)
      let h3 := h2.setZ rc (jmul (h2.store ra).z (h2.store rb).z)
      (h3, rc)
  | .scalar s =>
      let h1 := h.setX rc (jmul (h.store ra).x s)
      let h2 := h1.setY rc (jmul (h1.store ra).y s)
      let h3 := h2.setZ rc (jmul (h2.store ra).z s)
      (h3, rc)

/-- Static `Vector.divide(a, b, c)` with explicit output object. -/
def Heap.divideStatic (h : Heap) (ra : Ref) (b : HOperand) (rc : Ref) : Heap × Ref :=
  match b with
  | .vec rb =>
      let h1 := h.setX rc (jdiv (h.store ra).x (h.store rb).x)
      let h2 := h1.setY rc (jdiv (h1.store ra).y (h1.store rb).y)
      let h3 := h2.setZ rc (jdiv (h2.store ra).z (h2.store rb).z)
      (h3, rc)
  | .scalar s =>
      let h1 := h.setX rc (jdiv (h.store ra).x s)
      let h2 := h1.setY rc (jdiv (h1.store ra).y s)
      let h3 := h2.setZ rc (jdiv (h2.store ra).z s)
      (h3, rc)

/-- Static `Vector.cross(a, b, c)` with explicit output object. -/
def Heap.crossStatic (h : Heap) (ra rb rc : Ref) : Heap × Ref :=
  let h1 := h.setX rc (jsub (jmul (h.store ra).y (h.store rb).z) (jmul (h.store ra).z (h.store rb).y))
  let h2 := h1.setY rc (jsub (jmul (h1.store ra).z (h1.store rb).x) (jmul (h1.store ra).x (h1.store rb).z))
  let h3 := h2.setZ rc (jsub (jmul (h2.store ra).x (h2.store rb).y) (jmul (h2.store ra).y (h2.store rb).x))
  (h3, rc)

/-- Static `Vector.negative(a, b)` with explicit output object. -/
def Heap.negativeStatic (h : Heap) (ra rb : Ref) : Heap × Ref :=
  let h1 := h.setX rb (jneg (h.store ra).x)
  let h2 := h1.setY rb (jneg (h1.store ra).y)
  let h3 := h2.setZ rb (jneg (h2.store ra).z)
  (h3, rb)

/-- Static `Vector.unit(a, b)` with explicit output object: the length is
computed once, before the three field assignments. -/
def Heap.unitStatic (sqrt : JSNum → JSNum) (h : Heap) (ra rb : Ref) : Heap × Ref :=
  let len := (h.store ra).length sqrt
  let h1 := h.setX rb (jdiv (h.store ra).x len)
  let h2 := h1.setY rb (jdiv (h1.store ra).y len)
  let h3 := h2.setZ rb (jdiv (h2.store ra).z len)
  (h3, rb)

/-- Static `Vector.add(a, b)` with the output omitted: the default
parameter `c = new Vector(0, 0, 0)` allocates a fresh zero vector. -/
def Heap.addStaticDefault (h : Heap) (ra : Ref) (b : HOperand) : Heap × Ref :=
  let alloc := h.allocVal (Vector.construct (some (.fin 0)) (some (.fin 0)) (some (.fin 0)))
  alloc.1.addStatic ra b alloc.2

/-- Static `Vector.subtract(a, b)` with the output omitted. -/
def Heap.subtractStaticDefault (h : Heap) (ra : Ref) (b : HOperand) : Heap × Ref :=
  let alloc := h.allocVal (Vector.construct (some (.fin 0)) (some (.fin 0)) (some (.fin 0)))
  alloc.1.subtractStatic ra b alloc.2

/-- Static `Vector.multiply(a, b)` with the output omitted. -/
def Heap.multiplyStaticDefault (h : Heap) (ra : Ref) (b : HOperand) : Heap × Ref :=
  let alloc := h.allocVal (Vector.construct (some (.fin 0)) (some (.fin 0)) (some (.fin 0)))
  alloc.1.multiplyStatic ra b alloc.2

/-- Static `Vector.divide(a, b)` with the output omitted. -/
def Heap.divideStaticDefault (h : Heap) (ra : Ref) (b : HOperand) : Heap × Ref :=
  let alloc := h.allocVal (Vector.construct (some (.fin 0)) (some (.fin 0)) (some (.fin 0)))
  alloc.1.divideStatic ra b alloc.2

/-- Instance `a.add(v)` in the heap model: computes the value and allocates
a fresh object for it (the `new Vector(...)` of the source). -/
def Heap.addInstance (h : Heap) (ra : Ref) (b : HOperand) : Heap × Ref :=
  h.allocVal ((h.store ra).add (b.deref h))

/-- Instance `a.subtract(v)` in the heap model. -/
def Heap.subtractInstance (h : Heap) (ra : Ref) (b : HOperand) : Heap × Ref :=
  h.allocVal ((h.store ra).subtract (b.deref h))

/-- Instance `a.multiply(v)` in the heap model. -/
def Heap.multiplyInstance (h : Heap) (ra : Ref) (b : HOperand) : Heap × Ref :=
  h.allocVal ((h.store ra).multiply (b.deref h))

/-- Instance `a.divide(v)` in the heap model. -/
def Heap.divideInstance (h : Heap) (ra : Ref) (b : HOperand) : Heap × Ref :=
  h.allocVal ((h.store ra).divide (b.deref h))

/-- Instance `a.cross(v)` in the heap model. -/
def Heap.crossInstance (h : Heap) (ra rb : Ref) : Heap × Ref :=
  h.allocVal ((h.store ra).cross (h.store rb))

/-- Instance `a.negative()` in the heap model. -/
def Heap.negativeInstance (h : Heap) (ra : Ref) : Heap × Ref :=
  h.allocVal ((h.store ra).negative)

/-- Instance `a.unit()` in the heap model: `this.divide(this.length())`
allocates exactly one fresh object, via `divide`. -/
def Heap.unitInstance (sqrt : JSNum → JSNum) (h : Heap) (ra : Ref) : Heap × Ref :=
  h.allocVal ((h.store ra).unit sqrt)

/-- Instance `a.init(x, y, z)`: mutates the receiver's fields in place and
returns the receiver itself. -/
def Heap.init (h : Heap) (r : Ref) (x y z : JSNum) : Heap × Ref :=
  (((h.setX r x).setY r y).setZ r z, r)

/-! Helper lemmas. -/

theorem jsOr_some_of_ne_nan (v : JSNum) (h : v ≠ .nan) : jsOr (some v) (.fin 0) = v := by
  cases v with
  | nan => exact absurd rfl h
  | posInf => rfl
  | negInf => rfl
  | fin q =>
      by_cases hq : q = 0
      · subst hq; simp [jsOr, jsTruthy]
      · simp [jsOr, jsTruthy, hq]

theorem construct_of_noNaN (v : Vector) (h : noNaN v) :
    Vector.construct (some v.x) (some v.y) (some v.z) = v := by
  obtain ⟨hx, hy, hz⟩ := h
  simp [Vector.construct, jsOr_some_of_ne_nan _ hx, jsOr_some_of_ne_nan _ hy,
    jsOr_some_of_ne_nan _ hz]

theorem jmul_comm (a b : JSNum) : jmul a b = jmul b a := by
  cases a <;> cases b <;> simp [jmul, mul_comm]

theorem jmul_one_right (x : JSNum) (h : x ≠ .nan) : jmul x (.fin 1) = x := by
  cases x with
  | nan => exact absurd rfl h
  | posInf => simp [jmul]
  | negInf => simp [jmul]
  | fin q => simp [jmul]

theorem jsOr_jmul_zero (x : JSNum) :
    jsOr (some (jmul x (.fin 0))) (.fin 0) = .fin 0 := by
  cases x <;> simp [jmul, jsOr, jsTruthy]

theorem jadd_zero_right (x : JSNum) (h : x ≠ .nan) : jadd x (.fin 0) = x := by
  cases x with
  | nan => exact absurd rfl h
  | posInf => rfl
  | negInf => rfl
  | fin q => simp [jadd]

theorem jadd_zero_left (x : JSNum) (h : x ≠ .nan) : jadd (.fin 0) x = x := by
  cases x with
  | nan => exact absurd rfl h
  | posInf => rfl
  | negInf => rfl
  | fin q => simp [jadd]

theorem jeq_self_iff (x : JSNum) : jeq x x = true ↔ x ≠ .nan := by
  cases x <;> simp [jeq]

/-- One component of the additive-inverse computation: the instance
`a.add(a.negative())` componentwise, constructor coercion included,
always lands exactly on `0`. -/
theorem add_neg_component (x : JSNum) :
    jeq (jsOr (some (jadd x (jsOr (some (jneg x)) (.fin 0)))) (.fin 0)) (.fin 0) = true := by
  cases x with
  | nan => simp [jneg, jsOr, jsTruthy, jadd, jeq]
  | posInf => simp [jneg, jsOr, jsTruthy, jadd, jeq]
  | negInf => simp [jneg, jsOr, jsTruthy, jadd, jeq]
  | fin q =>
      by_cases hq : q = 0
      · subst hq; simp [jneg, jsOr, jsTruthy, jadd, jeq]
      · simp [jneg, jsOr, jsTruthy, jadd, jeq, hq]

theorem addStatic_writes (h : Heap) (ra : Ref) (b : HOperand) (rc : Ref) :
    (h.addStatic ra b rc).1.store rc = addVals (h.store ra) (b.deref h) := by
  cases b <;>
    simp [Heap.addStatic, Heap.setX, Heap.setY, Heap.setZ, addVals, HOperand.deref]

theorem subtractStatic_writes (h : Heap) (ra : Ref) (b : HOperand) (rc : Ref) :
    (h.subtractStatic ra b rc).1.store rc = subVals (h.store ra) (b.deref h) := by
  cases b <;>
    simp [Heap.subtractStatic, Heap.setX, Heap.setY, Heap.setZ, subVals, HOperand.deref]

theorem multiplyStatic_writes (h : Heap) (ra : Ref) (b : HOperand) (rc : Ref) :
    (h.multiplyStatic ra b rc).1.store rc = mulVals (h.store ra) (b.deref h) := by
  cases b <;>
    simp [Heap.multiplyStatic, Heap.setX, Heap.setY, Heap.setZ, mulVals, HOperand.deref]

theorem divideStatic_writes (h : Heap) (ra : Ref) (b : HOperand) (rc : Ref) :
    (h.divideStatic ra b rc).1.store rc = divVals (h.store ra) (b.deref h) := by
  cases b <;>
    simp [Heap.divideStatic, Heap.setX, Heap.setY, Heap.setZ, divVals, HOperand.deref]

theorem instance_eq_coerced_add (a : Vector) (b : VOperand) :
    a.add b = Vector.construct (some (addVals a b).x) (some (addVals a b).y)
      (some (addVals a b).z) := by
  cases b <;> rfl

theorem instance_eq_coerced_subtract (a : Vector) (b : VOperand) :
    a.subtract b = Vector.construct (some (subVals a b).x) (some (subVals a b).y)
      (some (subVals a b).z) := by
  cases b <;> rfl

theorem instance_eq_coerced_multiply (a : Vector) (b : VOperand) :
    a.multiply b = Vector.construct (some (mulVals a b).x) (some (mulVals a b).y)
      (some (mulVals a b).z) := by
  cases b <;> rfl

theorem instance_eq_coerced_divide (a : Vector) (b : VOperand) :
    a.divide b = Vector.construct (some (divVals a b).x) (some (divVals a b).y)
      (some (divVals a b).z) := by
  cases b <;> rfl

/-- After the default-parameter allocation `c = new Vector(0, 0, 0)`, an
already-allocated left operand and operand object denote the same values
as before the allocation. -/
theorem alloc_preserves_operands (h : Heap) (ra : Ref) (b : HOperand)
    (ha : ra ≠ h.next) (hb : b.validIn h = true) (v : Vector) :
    (h.allocVal v).1.store ra = h.store ra
  ∧ b.deref (h.allocVal v).1 = b.deref h := by
  constructor
  · simp [Heap.allocVal, ha]
  · cases b with
    | vec rb =>
        have hrb : rb < h.next := by simpa [HOperand.validIn] using hb
        simp [HOperand.deref, Heap.allocVal, Nat.ne_of_lt hrb]
    | scalar s => rfl

/-! Claim theorems. -/

/-- Claim C8: for every vector `a`, the instance computation
`a.add(a.negative())` equals `new Vector(0, 0, 0)` under the library's
`equals` comparison.  This holds for all vectors, including those with
NaN or infinite components, because the constructor used by the instance
operations coerces a falsy (NaN) component to `0` and `∞ + (-∞) = NaN`
is likewise coerced to `0`. -/
theorem claim8_additive_inverse (a : Vector) :
    (a.add (.vec a.negative)).equals
      (Vector.construct (some (.fin 0)) (some (.fin 0)) (some (.fin 0))) = true := by
  have hc : Vector.construct (some (.fin 0)) (some (.fin 0)) (some (.fin 0))
      = ⟨.fin 0, .fin 0, .fin 0⟩ := by
    simp [Vector.construct, jsOr, jsTruthy]
  rw [hc]
  show (jeq _ _ && jeq _ _ && jeq _ _) = true
  simp only [Vector.add, Vector.negative, Vector.construct, Vector.equals, Bool.and_eq_true]
  exact ⟨⟨add_neg_component a.x, add_neg_component a.y⟩, add_neg_component a.z⟩

/-- Claim C9: `equals` compares components with `===`, so `v.equals(v)` is
true exactly when no component of `v` is NaN (and false as soon as one
component is NaN). -/
theorem claim9_equals_reflexive (v : Vector) :
    v.equals v = true ↔ (v.x ≠ .nan ∧ v.y ≠ .nan ∧ v.z ≠ .nan) := by
  simp [Vector.equals, Bool.and_eq_true, jeq_self_iff, and_assoc]

/-- Claim C10: the componentwise static operations `add`, `subtract`,
`multiply`, `divide` are alias-safe: for any heap and any references
`ra`, `rb`, `rc` (in particular `rc = ra` or `rc = rb`), the output object
ends up holding the componentwise result computed from the operands'
original component values, because each operand component is read only
before or within the assignment writing that same output component. -/
theorem claim10_alias_safe :
    (∀ (h : Heap) (ra rb rc : Ref),
        (h.addStatic ra (.vec rb) rc).1.store rc
          = addVals (h.store ra) (.vec (h.store rb)))
  ∧ (∀ (h : Heap) (ra rb rc : Ref),
        (h.subtractStatic ra (.vec rb) rc).1.store rc
          = subVals (h.store ra) (.vec (h.store rb)))
  ∧ (∀ (h : Heap) (ra rb rc : Ref),
        (h.multiplyStatic ra (.vec rb) rc).1.store rc
          = mulVals (h.store ra) (.vec (h.store rb)))
  ∧ (∀ (h : Heap) (ra rb rc : Ref),
        (h.divideStatic ra (.vec rb) rc).1.store rc
          = divVals (h.store ra) (.vec (h.store rb)))
  ∧ (∀ (h : Heap) (ra : Ref) (s : JSNum) (rc : Ref),
        (h.addStatic ra (.scalar s) rc).1.store rc
          = addVals (h.store ra) (.scalar s))
  ∧ (∀ (h : Heap) (ra : Ref) (s : JSNum) (rc : Ref),
        (h.subtractStatic ra (.scalar s) rc).1.store rc
          = subVals (h.store ra) (.scalar s))
  ∧ (∀ (h : Heap) (ra : Ref) (s : JSNum) (rc : Ref),
        (h.multiplyStatic ra (.scalar s) rc).1.store rc
          = mulVals (h.store ra) (.scalar s))
  ∧ (∀ (h : Heap) (ra : Ref) (s : JSNum) (rc : Ref),
        (h.divideStatic ra (.scalar s) rc).1.store rc
          = divVals (h.store ra) (.scalar s)) := by
  refine ⟨?_, ?_, ?_, ?_, ?_, ?_, ?_, ?_⟩ <;>
    intro h ra rb rc <;>
      simp [Heap.addStatic, Heap.subtractStatic, Heap.multiplyStatic, Heap.divideStatic,
        Heap.setX, Heap.setY, Heap.setZ, addVals, subVals, mulVals, divVals]

/-- Frame property of every instance-form operation: it returns the fresh
reference `h.next`, bumps the allocation counter, stores the given value at
the fresh reference, and leaves every other reference (in particular the
receiver and the operand) unchanged. -/
theorem allocVal_spec (h : Heap) (v : Vector) :
    (h.allocVal v).2 = h.next
  ∧ (h.allocVal v).1.next = h.next + 1
  ∧ ∀ r : Ref, (h.allocVal v).1.store r = if r = h.next then v else h.store r := by
  exact ⟨rfl, rfl, fun _ => rfl⟩

/-- Frame property of one field assignment: only the target reference can
change. -/
theorem set_frame (h : Heap) (r : Ref) (n : JSNum) (r' : Ref) (hne : r' ≠ r) :
    (h.setX r n).store r' = h.store r'
  ∧ (h.setY r n).store r' = h.store r'
  ∧ (h.setZ r n).store r' = h.store r' := by
  refine ⟨?_, ?_, ?_⟩ <;> simp [Heap.setX, Heap.setY, Heap.setZ, hne]

/-- Claim C4: each instance arithmetic operation (`add`, `subtract`,
`multiply`, `divide`, `cross`, `negative`, `unit`) returns a newly
allocated vector (the fresh reference `h.next`, which is distinct from
every previously allocated reference) holding the operation's value, and
leaves every existing object — in particular both operands — unchanged;
each static form returns its `out` reference and writes only to `out`
(every reference other than `out` keeps its value, so the operands are
unchanged whenever they are not the `out` object itself), allocating
nothing; `init` mutates only its receiver, setting its fields to exactly
the given (uncoerced) values, returns that same receiver, and allocates
nothing. -/
theorem claim4_frame :
    (∀ (h : Heap) (ra : Ref) (b : HOperand),
        (h.addInstance ra b).2 = h.next
      ∧ (h.addInstance ra b).1.next = h.next + 1
      ∧ ∀ r : Ref, (h.addInstance ra b).1.store r
          = if r = h.next then (h.store ra).add (b.deref h) else h.store r)
  ∧ (∀ (h : Heap) (ra : Ref) (b : HOperand),
        (h.subtractInstance ra b).2 = h.next
      ∧ (h.subtractInstance ra b).1.next = h.next + 1
      ∧ ∀ r : Ref, (h.subtractInstance ra b).1.store r
          = if r = h.next then (h.store ra).subtract (b.deref h) else h.store r)
  ∧ (∀ (h : Heap) (ra : Ref) (b : HOperand),
        (h.multiplyInstance ra b).2 = h.next
      ∧ (h.multiplyInstance ra b).1.next = h.next + 1
      ∧ ∀ r : Ref, (h.multiplyInstance ra b).1.store r
          = if r = h.next then (h.store ra).multiply (b.deref h) else h.store r)
  ∧ (∀ (h : Heap) (ra : Ref) (b : HOperand),
        (h.divideInstance ra b).2 = h.next
      ∧ (h.divideInstance ra b).1.next = h.next + 1
      ∧ ∀ r : Ref, (h.divideInstance ra b).1.store r
          = if r = h.next then (h.store ra).divide (b.deref h) else h.store r)
  ∧ (∀ (h : Heap) (ra rb : Ref),
        (h.crossInstance ra rb).2 = h.next
      ∧ (h.crossInstance ra rb).1.next = h.next + 1
      ∧ ∀ r : Ref, (h.crossInstance ra rb).1.store r
          = if r = h.next then (h.store ra).cross (h.store rb) else h.store r)
  ∧ (∀ (h : Heap) (ra : Ref),
        (h.negativeInstance ra).2 = h.next
      ∧ (h.negativeInstance ra).1.next = h.next + 1
      ∧ ∀ r : Ref, (h.negativeInstance ra).1.store r
          = if r = h.next then (h.store ra).negative else h.store r)
  ∧ (∀ (sqrt : JSNum → JSNum) (h : Heap) (ra : Ref),
        (h.unitInstance sqrt ra).2 = h.next
      ∧ (h.unitInstance sqrt ra).1.next = h.next + 1
      ∧ ∀ r : Ref, (h.unitInstance sqrt ra).1.store r
          = if r = h.next then (h.store ra).unit sqrt else h.store r)
  ∧ (∀ (h : Heap) (ra : Ref) (b : HOperand) (rc : Ref),
        (h.addStatic ra b rc).2 = rc
      ∧ (h.addStatic ra b rc).1.next = h.next
      ∧ ∀ r : Ref, r = rc ∨ (h.addStatic ra b rc).1.store r = h.store r)
  ∧ (∀ (h : Heap) (ra : Ref) (b : HOperand) (rc : Ref),
        (h.subtractStatic ra b rc).2 = rc
      ∧ (h.subtractStatic ra b rc).1.next = h.next
      ∧ ∀ r : Ref, r = rc ∨ (h.subtractStatic ra b rc).1.store r = h.store r)
  ∧ (∀ (h : Heap) (ra : Ref) (b : HOperand) (rc : Ref),
        (h.multiplyStatic ra b rc).2 = rc
      ∧ (h.multiplyStatic ra b rc).1.next = h.next
      ∧ ∀ r : Ref, r = rc ∨ (h.multiplyStatic ra b rc).1.store r = h.store r)
  ∧ (∀ (h : Heap) (ra : Ref) (b : HOperand) (rc : Ref),
        (h.divideStatic ra b rc).2 = rc
      ∧ (h.divideStatic ra b rc).1.next = h.next
      ∧ ∀ r : Ref, r = rc ∨ (h.divideStatic ra b rc).1.store r = h.store r)
  ∧ (∀ (h : Heap) (ra rb rc : Ref),
        (h.crossStatic ra rb rc).2 = rc
      ∧ (h.crossStatic ra rb rc).1.next = h.next
      ∧ ∀ r : Ref, r = rc ∨ (h.crossStatic ra rb rc).1.store r = h.store r)
  ∧ (∀ (h : Heap) (ra rb : Ref),
        (h.negativeStatic ra rb).2 = rb
      ∧ (h.negativeStatic ra rb).1.next = h.next
      ∧ ∀ r : Ref, r = rb ∨ (h.negativeStatic ra rb).1.store r = h.store r)
  ∧ (∀ (sqrt : JSNum → JSNum) (h : Heap) (ra rb : Ref),
        (h.unitStatic sqrt ra rb).2 = rb
      ∧ (h.unitStatic sqrt ra rb).1.next = h.next
      ∧ ∀ r : Ref, r = rb ∨ (h.unitStatic sqrt ra rb).1.store r = h.store r)
  ∧ (∀ (h : Heap) (r : Ref) (x y z : JSNum),
        (h.init r x y z).2 = r
      ∧ (h.init r x y z).1.next = h.next
      ∧ (h.init r x y z).1.store r = ⟨x, y, z⟩
      ∧ ∀ r' : Ref, r' = r ∨ (h.init r x y z).1.store r' = h.store r') := by
  refine ⟨fun h ra b => allocVal_spec h _, fun h ra b => allocVal_spec h _,
    fun h ra b => allocVal_spec h _, fun h ra b => allocVal_spec h _,
    fun h ra rb => allocVal_spec h _, fun h ra => allocVal_spec h _,
    fun s h ra => allocVal_spec h _, ?_, ?_, ?_, ?_, ?_, ?_, ?_, ?_⟩
  · intro h ra b rc
    cases b <;>
      refine ⟨rfl, rfl, fun r => ?_⟩ <;>
        (by_cases hr : r = rc
         · exact Or.inl hr
         · exact Or.inr (by simp [Heap.addStatic, Heap.setX, Heap.setY, Heap.setZ, hr]))
  · intro h ra b rc
    cases b <;>
      refine ⟨rfl, rfl, fun r => ?_⟩ <;>
        (by_cases hr : r = rc
         · exact Or.inl hr
         · exact Or.inr (by simp [Heap.subtractStatic, Heap.setX, Heap.setY, Heap.setZ, hr]))
  · intro h ra b rc
    cases b <;>
      refine ⟨rfl, rfl, fun r => ?_⟩ <;>
        (by_cases hr : r = rc
         · exact Or.inl hr
         · exact Or.inr (by simp [Heap.multiplyStatic, Heap.setX, Heap.setY, Heap.setZ, hr]))
  · intro h ra b rc
    cases b <;>
      refine ⟨rfl, rfl, fun r => ?_⟩ <;>
        (by_cases hr : r = rc
         · exact Or.inl hr
         · exact Or.inr (by simp [Heap.divideStatic, Heap.setX, Heap.setY, Heap.setZ, hr]))
  · intro h ra rb rc
    refine ⟨rfl, rfl, fun r => ?_⟩
    by_cases hr : r = rc
    · exact Or.inl hr
    · exact Or.inr (by simp [Heap.crossStatic, Heap.setX, Heap.setY, Heap.setZ, hr])
  · intro h ra rb
    refine ⟨rfl, rfl, fun r => ?_⟩
    by_cases hr : r = rb
    · exact Or.inl hr
    · exact Or.inr (by simp [Heap.negativeStatic, Heap.setX, Heap.setY, Heap.setZ, hr])
  · intro s h ra rb
    refine ⟨rfl, rfl, fun r => ?_⟩
    by_cases hr : r = rb
    · exact Or.inl hr
    · exact Or.inr (by simp [Heap.unitStatic, Heap.setX, Heap.setY, Heap.setZ, hr])
  · intro h r x y z
    refine ⟨rfl, rfl, by simp [Heap.init, Heap.setX, Heap.setY, Heap.setZ], fun r' => ?_⟩
    by_cases hr : r' = r
    · exact Or.inl hr
    · exact Or.inr (by simp [Heap.init, Heap.setX, Heap.setY, Heap.setZ, hr])

/-- Claim C1 counterexample: the static and instance forms do NOT have the
same numeric semantics.  With `a = (NaN, 0, 0)` and `b = (NaN, 0, 0)`,
`Vector.add(a, b, out)` writes `(NaN, 0, 0)` into `out` (raw field
assignment), while `a.add(b)` returns `(0, 0, 0)`: the instance form
builds its result with `new Vector(...)`, whose `x || 0` coercion turns
the falsy `NaN` component into `0`. -/
theorem claim1_counterexample :
    (Heap.addStatic ⟨fun _ => ⟨.nan, .fin 0, .fin 0⟩, 3⟩ 0 (.vec 1) 2).1.store 2
      = ⟨.nan, .fin 0, .fin 0⟩
  ∧ Vector.add ⟨.nan, .fin 0, .fin 0⟩ (.vec ⟨.nan, .fin 0, .fin 0⟩)
      = ⟨.fin 0, .fin 0, .fin 0⟩
  ∧ (⟨.nan, .fin 0, .fin 0⟩ : Vector) ≠ ⟨.fin 0, .fin 0, .fin 0⟩ := by
  refine ⟨?_, ?_, ?_⟩
  · norm_num [Heap.addStatic, Heap.setX, Heap.setY, Heap.setZ, jadd]
  · norm_num [Vector.add, Vector.construct, jsOr, jsTruthy, jadd]
  · simp

/-- Claim C1, amended: for each of `add`, `subtract`, `multiply`, `divide`
(with the second operand a Vector combined componentwise, or a scalar
broadcast to all three components), the static form writes the raw
componentwise result — computed from the operands' original component
values — into `out` and returns `out` itself, and when `out` is omitted a
freshly allocated zero-vector is used as `out`; the instance form
`a.op(b)` agrees with that result whenever no computed component is NaN,
but coerces any NaN component to `0` through the `Vector` constructor,
while the static form preserves NaN. -/
theorem claim1_static_instance :
    (∀ (h : Heap) (ra : Ref) (b : HOperand) (rc : Ref),
        ((h.addStatic ra b rc).2 = rc
          ∧ (h.addStatic ra b rc).1.store rc = addVals (h.store ra) (b.deref h))
      ∧ ((h.subtractStatic ra b rc).2 = rc
          ∧ (h.subtractStatic ra b rc).1.store rc = subVals (h.store ra) (b.deref h))
      ∧ ((h.multiplyStatic ra b rc).2 = rc
          ∧ (h.multiplyStatic ra b rc).1.store rc = mulVals (h.store ra) (b.deref h))
      ∧ ((h.divideStatic ra b rc).2 = rc
          ∧ (h.divideStatic ra b rc).1.store rc = divVals (h.store ra) (b.deref h)))
  ∧ (∀ (h : Heap) (ra : Ref) (b : HOperand),
        ra ≠ h.next → b.validIn h = true →
        ((h.addStaticDefault ra b).2 = h.next
          ∧ (h.addStaticDefault ra b).1.store h.next = addVals (h.store ra) (b.deref h))
      ∧ ((h.subtractStaticDefault ra b).2 = h.next
          ∧ (h.subtractStaticDefault ra b).1.store h.next = subVals (h.store ra) (b.deref h))
      ∧ ((h.multiplyStaticDefault ra b).2 = h.next
          ∧ (h.multiplyStaticDefault ra b).1.store h.next = mulVals (h.store ra) (b.deref h))
      ∧ ((h.divideStaticDefault ra b).2 = h.next
          ∧ (h.divideStaticDefault ra b).1.store h.next = divVals (h.store ra) (b.deref h)))
  ∧ (∀ (a : Vector) (b : VOperand),
        (noNaN (addVals a b) → a.add b = addVals a b)
      ∧ (noNaN (subVals a b) → a.subtract b = subVals a b)
      ∧ (noNaN (mulVals a b) → a.multiply b = mulVals a b)
      ∧ (noNaN (divVals a b) → a.divide b = divVals a b)) := by
  refine ⟨?_, ?_, ?_⟩
  · intro h ra b rc
    exact ⟨⟨by cases b <;> rfl, addStatic_writes h ra b rc⟩,
      ⟨by cases b <;> rfl, subtractStatic_writes h ra b rc⟩,
      ⟨by cases b <;> rfl, multiplyStatic_writes h ra b rc⟩,
      ⟨by cases b <;> rfl, divideStatic_writes h ra b rc⟩⟩
  · intro h ra b ha hb
    obtain ⟨hsa, hsb⟩ := alloc_preserves_operands h ra b ha hb
      (Vector.construct (some (.fin 0)) (some (.fin 0)) (some (.fin 0)))
    refine ⟨⟨by cases b <;> rfl, ?_⟩, ⟨by cases b <;> rfl, ?_⟩,
      ⟨by cases b <;> rfl, ?_⟩, ⟨by cases b <;> rfl, ?_⟩⟩
    · have hw := addStatic_writes
        (h.allocVal (Vector.construct (some (.fin 0)) (some (.fin 0)) (some (.fin 0)))).1
        ra b
        (h.allocVal (Vector.construct (some (.fin 0)) (some (.fin 0)) (some (.fin 0)))).2
      rw [hsa, hsb] at hw
      exact hw
    · have hw := subtractStatic_writes
        (h.allocVal (Vector.construct (some (.fin 0)) (some (.fin 0)) (some (.fin 0)))).1
        ra b
        (h.allocVal (Vector.construct (some (.fin 0)) (some (.fin 0)) (some (.fin 0)))).2
      rw [hsa, hsb] at hw
      exact hw
    · have hw := multiplyStatic_writes
        (h.allocVal (Vector.construct (some (.fin 0)) (some (.fin 0)) (some (.fin 0)))).1
        ra b
        (h.allocVal (Vector.construct (some (.fin 0)) (some (.fin 0)) (some (.fin 0)))).2
      rw [hsa, hsb] at hw
      exact hw
    · have hw := divideStatic_writes
        (h.allocVal (Vector.construct (some (.fin 0)) (some (.fin 0)) (some (.fin 0)))).1
        ra b
        (h.allocVal (Vector.construct (some (.fin 0)) (some (.fin 0)) (some (.fin 0)))).2
      rw [hsa, hsb] at hw
      exact hw
  · intro a b
    exact ⟨fun hn => (instance_eq_coerced_add a b).trans (construct_of_noNaN _ hn),
      fun hn => (instance_eq_coerced_subtract a b).trans (construct_of_noNaN _ hn),
      fun hn => (instance_eq_coerced_multiply a b).trans (construct_of_noNaN _ hn),
      fun hn => (instance_eq_coerced_divide a b).trans (construct_of_noNaN _ hn)⟩

/-- Claim C1 witness: the amended theorem applied at a concrete heap with
two allocated objects both holding `(1, 2, 3)`: the default-out static add
allocates reference 2, writes `(2, 4, 6)` there and returns it, and the
instance add agrees. -/
theorem claim1_witness :
    (Heap.addStaticDefault ⟨fun _ => ⟨.fin 1, .fin 2, .fin 3⟩, 2⟩ 0 (.vec 1)).2 = 2
  ∧ (Heap.addStaticDefault ⟨fun _ => ⟨.fin 1, .fin 2, .fin 3⟩, 2⟩ 0 (.vec 1)).1.store 2
      = ⟨.fin 2, .fin 4, .fin 6⟩
  ∧ Vector.add ⟨.fin 1, .fin 2, .fin 3⟩ (.vec ⟨.fin 1, .fin 2, .fin 3⟩)
      = ⟨.fin 2, .fin 4, .fin 6⟩ := by
  obtain ⟨-, hdef, hinst⟩ := claim1_static_instance
  have hd := (hdef ⟨fun _ => ⟨.fin 1, .fin 2, .fin 3⟩, 2⟩ 0 (.vec 1)
    (by decide) (by decide)).1
  have hi := (hinst ⟨.fin 1, .fin 2, .fin 3⟩ (.vec ⟨.fin 1, .fin 2, .fin 3⟩)).1
    (by simp [noNaN, addVals, jadd])
  exact ⟨hd.1, hd.2.trans (by norm_num [addVals, HOperand.deref, jadd]),
    hi.trans (by norm_num [addVals, jadd])⟩

/-- Claim C5 counterexample: the INSTANCE form `unit` applied to the zero
vector does NOT return NaN components.  `this.divide(this.length())`
computes `0 / 0 = NaN` per component, but the `new Vector(...)` inside
`divide` coerces each falsy NaN to `0`, so the instance form returns the
zero vector again (with any `sqrt` model satisfying the IEEE fact
`sqrt(0) = 0`, here the constant-zero function, consistent with
`Math.sqrt` at the only point used). -/
theorem claim5_counterexample :
    Vector.unit (fun _ => .fin 0) ⟨.fin 0, .fin 0, .fin 0⟩ = ⟨.fin 0, .fin 0, .fin 0⟩
  ∧ (fun _ => JSNum.fin 0) (JSNum.fin 0) = JSNum.fin 0
  ∧ JSNum.fin 0 ≠ JSNum.nan := by
  refine ⟨?_, rfl, by simp⟩
  norm_num [Vector.unit, Vector.divide, Vector.length, Vector.dot, Vector.construct,
    jmul, jadd, jdiv, jsOr, jsTruthy]

/-- Claim C5, amended: with any `sqrt` satisfying `sqrt(0) = 0`, the STATIC
`unit` on a zero-vector operand writes `(NaN, NaN, NaN)` into its output
object and returns it (raw field assignment preserves the NaN from
`0 / 0`), while the INSTANCE `unit` on the zero vector computes the same
NaN components but returns `(0, 0, 0)` because its result passes through
the `Vector` constructor, which coerces falsy NaN components to `0`.
Neither form raises an error: both are total and every failure surfaces
as a value. -/
theorem claim5_unit_zero (sqrt : JSNum → JSNum) (h : Heap) (ra rc : Ref)
    (hs : sqrt (.fin 0) = .fin 0)
    (hz : h.store ra = ⟨.fin 0, .fin 0, .fin 0⟩) :
    (h.unitStatic sqrt ra rc).2 = rc
  ∧ (h.unitStatic sqrt ra rc).1.store rc = ⟨.nan, .nan, .nan⟩
  ∧ Vector.unit sqrt ⟨.fin 0, .fin 0, .fin 0⟩ = ⟨.fin 0, .fin 0, .fin 0⟩ := by
  have hd : (⟨.fin 0, .fin 0, .fin 0⟩ : Vector).dot ⟨.fin 0, .fin 0, .fin 0⟩ = .fin 0 := by
    norm_num [Vector.dot, jmul, jadd]
  have hlen : (⟨.fin 0, .fin 0, .fin 0⟩ : Vector).length sqrt = .fin 0 := by
    rw [Vector.length, hd, hs]
  refine ⟨rfl, ?_, ?_⟩
  · simp only [Heap.unitStatic, Heap.setX, Heap.setY, Heap.setZ, hz, hlen]
    norm_num [jdiv]
  · rw [Vector.unit, hlen]
    norm_num [Vector.divide, Vector.construct, jdiv, jsOr, jsTruthy]

/-- Claim C5 witness: the amended theorem at a concrete heap whose
object 0 is the zero vector, with output object 1, and the constant-zero
`sqrt` model. -/
theorem claim5_witness :
    (Heap.unitStatic (fun _ => .fin 0) ⟨fun _ => ⟨.fin 0, .fin 0, .fin 0⟩, 2⟩ 0 1).1.store 1
      = ⟨.nan, .nan, .nan⟩
  ∧ Vector.unit (fun _ => .fin 0) ⟨.fin 0, .fin 0, .fin 0⟩ = ⟨.fin 0, .fin 0, .fin 0⟩ := by
  have hc := claim5_unit_zero (fun _ => .fin 0) ⟨fun _ => ⟨.fin 0, .fin 0, .fin 0⟩, 2⟩ 0 1
    rfl rfl
  exact ⟨hc.2.1, hc.2.2⟩

/-- Claim C6 counterexample: `fromPhiTheta(NaN, NaN)` does not return
`(cos(phi)·cos(theta), sin(phi), cos(phi)·sin(theta))`.  With any cosine
and sine model agreeing with IEEE `Math.cos`/`Math.sin` at NaN (they
return NaN there; the constant-NaN functions used here do), the products
and `sin(phi)` are NaN, and the `new Vector(...)` constructor coerces all
three falsy NaN components to `0`: the result is `(0, 0, 0)`, whose `y`
component differs from `sin(phi) = NaN`. -/
theorem claim6_counterexample :
    Vector.fromPhiTheta (fun _ => .nan) (fun _ => .nan) .nan .nan = ⟨.fin 0, .fin 0, .fin 0⟩
  ∧ (fun _ => JSNum.nan) JSNum.nan = JSNum.nan
  ∧ (⟨.fin 0, .fin 0, .fin 0⟩ : Vector).y ≠ (fun _ => JSNum.nan) JSNum.nan := by
  refine ⟨?_, rfl, by simp⟩
  simp [Vector.fromPhiTheta, Vector.construct, jmul, jsOr, jsTruthy]

/-- Claim C6, amended: for every cosine/sine model and all angles,
`fromPhiTheta(phi, theta)` returns exactly
`(cos(phi)·cos(theta), sin(phi), cos(phi)·sin(theta))` provided none of
those three computed components is NaN (a NaN component is coerced to `0`
by the constructor); and unconditionally the other module's
`fromAngles(theta, phi)` — swapped argument order — returns a vector with
exactly the same components, since multiplication is commutative. -/
theorem claim6_spherical (cos sin : JSNum → JSNum) (phi theta : JSNum) :
    (jmul (cos phi) (cos theta) ≠ .nan → sin phi ≠ .nan →
      jmul (cos phi) (sin theta) ≠ .nan →
      Vector.fromPhiTheta cos sin phi theta
        = ⟨jmul (cos phi) (cos theta), sin phi, jmul (cos phi) (sin theta)⟩)
  ∧ Vector.fromAngles cos sin theta phi = Vector.fromPhiTheta cos sin phi theta := by
  constructor
  · intro h1 h2 h3
    simp [Vector.fromPhiTheta, Vector.construct, jsOr_some_of_ne_nan _ h1,
      jsOr_some_of_ne_nan _ h2, jsOr_some_of_ne_nan _ h3]
  · rw [Vector.fromAngles, Vector.fromPhiTheta, jmul_comm (cos theta) (cos phi),
      jmul_comm (sin theta) (cos phi)]

/-- Claim C6 witness: the amended theorem at the constant-one cosine/sine
model and angles `phi = theta = 1`, where no component is NaN. -/
theorem claim6_witness :
    Vector.fromPhiTheta (fun _ => .fin 1) (fun _ => .fin 1) (.fin 1) (.fin 1)
      = ⟨jmul (.fin 1) (.fin 1), .fin 1, jmul (.fin 1) (.fin 1)⟩
  ∧ Vector.fromAngles (fun _ => .fin 1) (fun _ => .fin 1) (.fin 1) (.fin 1)
      = Vector.fromPhiTheta (fun _ => .fin 1) (fun _ => .fin 1) (.fin 1) (.fin 1) := by
  have hc := claim6_spherical (fun _ => .fin 1) (fun _ => .fin 1) (.fin 1) (.fin 1)
  exact ⟨hc.1 (by simp [jmul]) (by simp) (by simp [jmul]), hc.2⟩

/-- One component of `lerp(a, b, 0)` with constructor coercion: whenever
the `a` component is not NaN, the component comes back unchanged
(this holds for every `b` component, even NaN or infinite ones, because
`y * 0` is either `0` or NaN and NaN is coerced to `0`). -/
theorem lerp_zero_component (x y : JSNum) (hx : x ≠ .nan) :
    jsOr (some (jadd (jsOr (some (jmul x (jsub (.fin 1) (.fin 0)))) (.fin 0))
      (jsOr (some (jmul y (.fin 0))) (.fin 0)))) (.fin 0) = x := by
  have h10 : jsub (.fin 1) (.fin 0) = .fin 1 := by norm_num [jsub]
  rw [h10, jmul_one_right x hx, jsOr_some_of_ne_nan x hx, jsOr_jmul_zero,
    jadd_zero_right x hx, jsOr_some_of_ne_nan x hx]

/-- One component of `lerp(a, b, 1)` with constructor coercion: whenever
the `b` component is not NaN, the component comes back unchanged. -/
theorem lerp_one_component (x y : JSNum) (hy : y ≠ .nan) :
    jsOr (some (jadd (jsOr (some (jmul x (jsub (.fin 1) (.fin 1)))) (.fin 0))
      (jsOr (some (jmul y (.fin 1))) (.fin 0)))) (.fin 0) = y := by
  have h11 : jsub (.fin 1) (.fin 1) = .fin 0 := by norm_num [jsub]
  rw [h11, jsOr_jmul_zero, jmul_one_right y hy, jsOr_some_of_ne_nan y hy,
    jadd_zero_left y hy, jsOr_some_of_ne_nan y hy]

/-- Claim C7 counterexample: `lerp(a, b, 0)` does not equal `a` for every
pair of vectors.  With `a = (NaN, 0, 0)` the computed x component
`NaN·1 + 0·0 = NaN` is coerced to `0` by the constructor, so the result is
`(0, 0, 0)`, which is not `a` — neither structurally nor under the
library's `equals` (which is false on any NaN component anyway). -/
theorem claim7_counterexample :
    Vector.lerp ⟨.nan, .fin 0, .fin 0⟩ ⟨.fin 0, .fin 0, .fin 0⟩ (.fin 0)
      = ⟨.fin 0, .fin 0, .fin 0⟩
  ∧ (⟨.fin 0, .fin 0, .fin 0⟩ : Vector) ≠ ⟨.nan, .fin 0, .fin 0⟩
  ∧ (Vector.lerp ⟨.nan, .fin 0, .fin 0⟩ ⟨.fin 0, .fin 0, .fin 0⟩ (.fin 0)).equals
      ⟨.nan, .fin 0, .fin 0⟩ = false := by
  have hl : Vector.lerp ⟨.nan, .fin 0, .fin 0⟩ ⟨.fin 0, .fin 0, .fin 0⟩ (.fin 0)
      = ⟨.fin 0, .fin 0, .fin 0⟩ := by
    norm_num [Vector.lerp, Vector.multiply, Vector.add, Vector.construct,
      jsub, jmul, jadd, jsOr, jsTruthy]
  refine ⟨hl, by simp, ?_⟩
  rw [hl]
  norm_num [Vector.equals, jeq]

/-- Claim C7, amended: `lerp(a, b, t) = a.multiply(1 - t).add(b.multiply(t))`
with `t` not clamped; `lerp(a, b, 0)` equals `a` for every `b` whenever no
component of `a` is NaN, and `lerp(a, b, 1)` equals `b` for every `a`
whenever no component of `b` is NaN (a NaN component of the result is
coerced to `0` by the constructor, losing the NaN). -/
theorem claim7_lerp_endpoints (a b : Vector) :
    (noNaN a → Vector.lerp a b (.fin 0) = a)
  ∧ (noNaN b → Vector.lerp a b (.fin 1) = b) := by
  constructor
  · rintro ⟨hx, hy, hz⟩
    exact Vector.ext (lerp_zero_component a.x b.x hx) (lerp_zero_component a.y b.y hy)
      (lerp_zero_component a.z b.z hz)
  · rintro ⟨hx, hy, hz⟩
    exact Vector.ext (lerp_one_component a.x b.x hx) (lerp_one_component a.y b.y hy)
      (lerp_one_component a.z b.z hz)

/-- Claim C7 witness: the endpoints at `a = (1, 2, 3)`, `b = (4, 5, 6)`. -/
theorem claim7_witness :
    Vector.lerp ⟨.fin 1, .fin 2, .fin 3⟩ ⟨.fin 4, .fin 5, .fin 6⟩ (.fin 0)
      = ⟨.fin 1, .fin 2, .fin 3⟩
  ∧ Vector.lerp ⟨.fin 1, .fin 2, .fin 3⟩ ⟨.fin 4, .fin 5, .fin 6⟩ (.fin 1)
      = ⟨.fin 4, .fin 5, .fin 6⟩ := by
  have hc := claim7_lerp_endpoints ⟨.fin 1, .fin 2, .fin 3⟩ ⟨.fin 4, .fin 5, .fin 6⟩
  exact ⟨hc.1 (by simp [noNaN]), hc.2 (by simp [noNaN])⟩

theorem jsOr_falsy (o : Option JSNum)
    (h : o = none ∨ o = some .nan ∨ o = some (.fin 0)) : jsOr o (.fin 0) = .fin 0 := by
  rcases h with rfl | rfl | rfl <;> simp [jsOr, jsTruthy]

/-- Claim C3 counterexample: supplying `NaN` — which is a supplied,
non-`undefined` argument — does NOT leave the component equal to the
supplied value: the `x || 0` coercion treats the falsy `NaN` as missing
and stores `0`.  "Only `undefined`/missing defaults to 0" is therefore
not observationally equivalent to the source's falsy coercion. -/
theorem claim3_counterexample :
    (Vector.construct (some .nan) none none).x = .fin 0
  ∧ JSNum.fin 0 ≠ JSNum.nan := by
  exact ⟨by simp [Vector.construct, jsOr, jsTruthy], by simp⟩

/-- Claim C3, amended: in `new Vector(x, y, z)` any omitted or falsy
argument (missing/`undefined`, `NaN`, or `0`) defaults to `0`; and for
every supplied argument that is neither `undefined` nor `NaN`, the
corresponding component equals that value — so the "only
`undefined`/missing defaults" reading is observationally equivalent for
all non-NaN inputs (the coercion of the falsy `0` stores `0` itself), but
diverges on supplied NaN arguments, which the source coerces to `0`. -/
theorem claim3_constructor (x y z : Option JSNum) :
    ((x = none ∨ x = some .nan ∨ x = some (.fin 0)) → (Vector.construct x y z).x = .fin 0)
  ∧ (∀ a : JSNum, x = some a → a ≠ .nan → (Vector.construct x y z).x = a)
  ∧ ((y = none ∨ y = some .nan ∨ y = some (.fin 0)) → (Vector.construct x y z).y = .fin 0)
  ∧ (∀ a : JSNum, y = some a → a ≠ .nan → (Vector.construct x y z).y = a)
  ∧ ((z = none ∨ z = some .nan ∨ z = some (.fin 0)) → (Vector.construct x y z).z = .fin 0)
  ∧ (∀ a : JSNum, z = some a → a ≠ .nan → (Vector.construct x y z).z = a) := by
  refine ⟨fun h => jsOr_falsy x h, fun a ha hn => ?_, fun h => jsOr_falsy y h,
    fun a ha hn => ?_, fun h => jsOr_falsy z h, fun a ha hn => ?_⟩ <;>
    (subst ha; exact jsOr_some_of_ne_nan a hn)

/-- Claim C3 witness: `new Vector(5, undefined, NaN)` yields `(5, 0, 0)`. -/
theorem claim3_witness :
    (Vector.construct (some (.fin 5)) none (some .nan)).x = .fin 5
  ∧ (Vector.construct (some (.fin 5)) none (some .nan)).y = .fin 0
  ∧ (Vector.construct (some (.fin 5)) none (some .nan)).z = .fin 0 := by
  have hc := claim3_constructor (some (.fin 5)) none (some .nan)
  exact ⟨hc.2.1 (.fin 5) rfl (by simp), hc.2.2.1 (Or.inl rfl),
    hc.2.2.2.2.1 (Or.inr (Or.inl rfl))⟩

/-- Whether the `toArray` argument avoids the finite-negative range on
which JavaScript `slice` counts from the end of the list rather than
clamping. -/
def nonNegArg (n : Option JSNum) : Bool :=
  match n with
  | some (.fin q) => decide (0 ≤ q)
  | _ => true

/-- Element count stated by the claim (amended): all three components when
the argument is omitted, `0`, or NaN; none for `-∞`; otherwise the
truncated argument clamped to at most 3. -/
def toArraySpecCount (n : Option JSNum) : Nat :=
  match n with
  | none => 3
  | some .nan => 3
  | some .posInf => 3
  | some .negInf => 0
  | some (.fin q) => if q = 0 then 3 else min (ratTrunc q).toNat 3

theorem slice_count_eq (n : Option JSNum) (hn : nonNegArg n = true) :
    jsSliceEnd3 (jsOr n (.fin 3)) = toArraySpecCount n := by
  have h3 : jsSliceEnd3 (.fin 3) = 3 := by
    norm_num [jsSliceEnd3, ratTrunc]
    omega
  cases n with
  | none => simpa [jsOr, toArraySpecCount] using h3
  | some m =>
      cases m with
      | nan => simpa [jsOr, jsTruthy, toArraySpecCount] using h3
      | posInf => simp [jsOr, jsTruthy, jsSliceEnd3, toArraySpecCount]
      | negInf => simp [jsOr, jsTruthy, jsSliceEnd3, toArraySpecCount]
      | fin q =>
          by_cases hq : q = 0
          · subst hq; simpa [jsOr, jsTruthy, toArraySpecCount] using h3
          · have hq' : (0 : ℚ) ≤ q := by simpa [nonNegArg] using hn
            have hfl : ¬ratTrunc q < 0 := by
              simp [ratTrunc, hq', not_lt]
              exact Int.floor_nonneg.mpr hq'
            simp [jsOr, jsTruthy, hq, jsSliceEnd3, toArraySpecCount, hfl]

/-- Claim C2 counterexample: for `n = -1`, `toArray` does not return the
first `max(min(n, 3), 0) = 0` components.  The source returns
`[x, y, z].slice(0, -1)`, and a negative `slice` end counts from the end
of the list: the result is the first TWO components, not the empty
sequence the clamping description predicts. -/
theorem claim2_counterexample :
    Vector.toArray ⟨.fin 1, .fin 2, .fin 3⟩ (some (.fin (-1))) = [.fin 1, .fin 2]
  ∧ ([JSNum.fin 1, JSNum.fin 2] : List JSNum) ≠ []
  ∧ max (min (-1 : ℚ) 3) 0 = 0 := by
  refine ⟨?_, by simp, by norm_num⟩
  have hcount : jsSliceEnd3 (jsOr (some (.fin (-1))) (.fin 3)) = 2 := by
    norm_num [jsOr, jsTruthy, jsSliceEnd3, ratTrunc]
    omega
  rw [Vector.toArray, hcount]
  rfl

/-- Claim C2, amended: for every vector `v` and every argument `n` that is
not a finite negative number, `v.toArray(n)` returns the first
`toArraySpecCount n` of the components `[x, y, z]`: all three when `n` is
omitted, `0`, or NaN; the truncation of `n` clamped to at most 3 when
`n > 0` (including `+∞`, which gives 3); and none for `-∞`.  For finite
negative `n` the source instead follows JavaScript `slice` semantics,
counting from the end of the list (see the counterexample). -/
theorem claim2_toArray (v : Vector) (n : Option JSNum) (hn : nonNegArg n = true) :
    v.toArray n = [v.x, v.y, v.z].take (toArraySpecCount n) := by
  rw [Vector.toArray, slice_count_eq n hn]

/-- Claim C2 witness: `toArray(2)` on `(1, 2, 3)` gives `[1, 2]`, and the
omitted-argument and `0` cases give all three components. -/
theorem claim2_witness :
    Vector.toArray ⟨.fin 1, .fin 2, .fin 3⟩ (some (.fin 2)) = [.fin 1, .fin 2]
  ∧ Vector.toArray ⟨.fin 1, .fin 2, .fin 3⟩ none = [.fin 1, .fin 2, .fin 3]
  ∧ Vector.toArray ⟨.fin 1, .fin 2, .fin 3⟩ (some (.fin 0)) = [.fin 1, .fin 2, .fin 3] := by
  refine ⟨?_, ?_, ?_⟩
  · have hcount : toArraySpecCount (some (.fin 2)) = 2 := by
      norm_num [toArraySpecCount, ratTrunc]
      omega
    rw [claim2_toArray ⟨.fin 1, .fin 2, .fin 3⟩ (some (.fin 2)) (by norm_num [nonNegArg]),
      hcount]
    rfl
  · rw [claim2_toArray ⟨.fin 1, .fin 2, .fin 3⟩ none (by norm_num [nonNegArg])]
    norm_num [toArraySpecCount]
  · rw [claim2_toArray ⟨.fin 1, .fin 2, .fin 3⟩ (some (.fin 0)) (by norm_num [nonNegArg])]
    norm_num [toArraySpecCount]

end VJS
